import Mathlib

/-!
Verification of `sqlForPartialUpdate` (src/express-jobly/helpers/sql.js).

The JavaScript function builds the `SET` clause of a parameterized SQL
`UPDATE` from an object of field/value pairs (`dataToUpdate`) and an
optional field-name-to-column-name mapping (`jsToSql`):

  function sqlForPartialUpdate(dataToUpdate, jsToSql) {
    const keys = Object.keys(dataToUpdate);
    if (keys.length === 0) throw new BadRequestError("No data");
    const cols = keys.map((colName, idx) =>
        `"$\x7bjsToSql[colName] || colName\x7d"=$$\x7bidx + 1\x7d`);
    return { setCols: cols.join(", "), values: Object.values(dataToUpdate) };
  }

Shallow embedding: a JS object is an insertion-ordered association list
(JS string-keyed objects iterate in insertion order, which the spec makes
part of the contract); JS values are a small inductive with the
truthiness and string-conversion rules the source relies on; the thrown
`BadRequestError` — and the `TypeError` that property access on an
`undefined` `jsToSql` raises — become `Except.error`.
-/

/-- JS values as they matter to this function: strings, numbers, booleans,
`null` and `undefined`. -/
inductive JSValue where
  | str : String → JSValue
  | num : Int → JSValue
  | bool : Bool → JSValue
  | null : JSValue
  | undefined : JSValue
deriving DecidableEq

/-- JS truthiness: falsy values are `""`, `0`, `false`, `null`, `undefined`. -/
def JSValue.truthy : JSValue → Bool
  | .str s => !(s == "")
  | .num n => !(n == 0)
  | .bool b => b
  | .null => false
  | .undefined => false

/-- JS template-literal string conversion (the source interpolates the
resolved column name into a template literal). -/
def JSValue.toDisplayString : JSValue → String
  | .str s => s
  | .num n => toString n
  | .bool b => if b then "true" else "false"
  | .null => "null"
  | .undefined => "undefined"

/-- A JS object: an association list in property insertion order. -/
abbrev JSObject := List (String × JSValue)

/-- JS property access `obj[key]`: the stored value, or `undefined` when the
key is absent. -/
def jsGet (obj : JSObject) (key : String) : JSValue :=
  match obj.find? (fun p => p.1 == key) with
  | some p => p.2
  | none => .undefined

/-- `Object.keys(obj)`: the keys in iteration (insertion) order. -/
def objectKeys (obj : JSObject) : List String :=
  obj.map Prod.fst

/-- `Object.values(obj)`: the values in the same iteration order. -/
def objectValues (obj : JSObject) : List JSValue :=
  obj.map Prod.snd

/-- The source's lookup-with-fallback `jsToSql[colName] || colName`:
the mapped value when it is truthy, else the key itself, converted to a
string by the surrounding template literal. -/
def resolveColName (jsToSql : JSObject) (colName : String) : String :=
  let mapped := jsGet jsToSql colName
  if mapped.truthy then mapped.toDisplayString else colName

/-- One fragment of the SET clause, for key `colName` at 0-based index
`idx`: the template literal that quotes the resolved column name and
appends the 1-based placeholder. -/
def setColFragment (jsToSql : JSObject) (colName : String) (idx : Nat) : String :=
  "\"" ++ resolveColName jsToSql colName ++ "\"=$" ++ toString (idx + 1)

/-- The `cols` array of the source: `keys.map((colName, idx) => ...)`. -/
def setColsList (dataToUpdate : JSObject) (jsToSql : JSObject) : List String :=
  (objectKeys dataToUpdate).enum.map (fun p => setColFragment jsToSql p.2 p.1)

/-- The errors this function can raise: the explicit `BadRequestError`,
and the `TypeError` JS raises when `jsToSql` is `undefined` and a
property of it is read. -/
inductive JsError where
  | badRequest : String → JsError
  | typeError : String → JsError
deriving DecidableEq

/-- The object the function returns: the joined SET clause and the bound
values. -/
structure ClauseResult where
  setCols : String
  values : List JSValue
deriving DecidableEq

/-- Message of the `TypeError` raised when the absent (`undefined`)
`jsToSql` argument is subscripted. -/
def undefinedLookupMsg : String := "Cannot read properties of undefined"

/-- `sqlForPartialUpdate(dataToUpdate, jsToSql)`. The `jsToSql` argument
has no default in the source, so an omitted argument is `undefined`,
modelled as `none`; subscripting it (which the `keys.map` callback does as
soon as there is at least one key) raises a `TypeError`. -/
def sqlForPartialUpdate (dataToUpdate : JSObject) (jsToSql : Option JSObject) :
    Except JsError ClauseResult :=
  let keys := objectKeys dataToUpdate
  if keys.length = 0 then
    .error (.badRequest "No data")
  else
    match jsToSql with
    | none => .error (.typeError undefinedLookupMsg)
    | some m =>
        .ok ⟨String.intercalate ", " (setColsList dataToUpdate m),
             objectValues dataToUpdate⟩

/-- The two arguments of a call, threaded as explicit state so that the
absence of side effects on them can be stated. -/
structure CallState where
  dataToUpdate : JSObject
  jsToSql : Option JSObject
deriving DecidableEq

/-- State-passing rendering of the source: `Object.keys`, the `map`
callback's reads of `jsToSql`, `cols.join` and `Object.values` only read
the arguments, so every path returns the incoming state. -/
def sqlForPartialUpdateSt (st : CallState) :
    Except JsError ClauseResult × CallState :=
  let keys := objectKeys st.dataToUpdate
  if keys.length = 0 then
    (.error (.badRequest "No data"), st)
  else
    match st.jsToSql with
    | none => (.error (.typeError undefinedLookupMsg), st)
    | some m =>
        (.ok ⟨String.intercalate ", " (setColsList st.dataToUpdate m),
              objectValues st.dataToUpdate⟩, st)

/-- Cost model, one unit per elementary step the source performs:
`Object.keys` walks the `n` entries, one length test, then on the success
path the `map` callback runs once per key, `join` touches each fragment,
and `Object.values` walks the entries again; on the `undefined`-mapping
path the first callback invocation raises. -/
def sqlForPartialUpdateCost (dataToUpdate : JSObject) (jsToSql : Option JSObject) :
    Nat :=
  let n := dataToUpdate.length
  n + 1 +
    (if n = 0 then 0 else
      match jsToSql with
      | none => 1
      | some _ => n + n + n)

/- ### Helper lemmas -/

/-- Indexing the fragment list is indexing `dataToUpdate`. -/
theorem setColsList_getElem? (data : JSObject) (m : JSObject) (i : Nat) :
    (setColsList data m)[i]? = data[i]?.map (fun p => setColFragment m p.1 i) := by
  simp [setColsList, objectKeys, List.getElem?_enum]
  cases data[i]? with
  | none => rfl
  | some p => rfl

/-- On a non-empty `dataToUpdate` and a present mapping, the call returns
the joined fragments and the values in order. -/
theorem sqlForPartialUpdate_ok (data : JSObject) (m : JSObject) (h : data ≠ []) :
    sqlForPartialUpdate data (some m) =
      .ok ⟨String.intercalate ", " (setColsList data m), objectValues data⟩ := by
  have hlen : (objectKeys data).length ≠ 0 := by
    simpa [objectKeys, List.length_eq_zero] using h
  simp [sqlForPartialUpdate, hlen]

/-- On a non-empty `dataToUpdate` and an absent mapping, the call raises
the `TypeError`. -/
theorem sqlForPartialUpdate_none (data : JSObject) (h : data ≠ []) :
    sqlForPartialUpdate data none = .error (.typeError undefinedLookupMsg) := by
  have hlen : (objectKeys data).length ≠ 0 := by
    simpa [objectKeys, List.length_eq_zero] using h
  simp [sqlForPartialUpdate, hlen]

/-- Whether a call produced a `ClauseResult` (as opposed to raising). -/
def producedResult : Except JsError ClauseResult → Bool
  | .ok _ => true
  | .error _ => false

/-- Example inputs from the source's doc comment, used to instantiate the
universally quantified theorems. -/
def exData : JSObject := [("firstName", .str "Aliya"), ("age", .num 32)]

/-- The example mapping from the source's doc comment. -/
def exMap : JSObject := [("firstName", .str "first_name")]

/- ### Claims -/

/-- C1: for every non-empty `updateData` and every `nameMapping`, the
`i`-th fragment of `setCols` carries the placeholder `$(i+1)`, and
`values[i]` is the value of the `i`-th key of `updateData` in iteration
order. -/
theorem c1_placeholder_value_alignment (data m : JSObject) (i : Nat)
    (key : String) (v : JSValue) (h : data[i]? = some (key, v)) :
    sqlForPartialUpdate data (some m) =
      .ok ⟨String.intercalate ", " (setColsList data m), objectValues data⟩ ∧
    (setColsList data m)[i]? =
      some ("\"" ++ resolveColName m key ++ "\"=$" ++ toString (i + 1)) ∧
    (objectValues data)[i]? = some v := by
  have hne : data ≠ [] := by
    intro he
    subst he
    simp at h
  refine ⟨sqlForPartialUpdate_ok data m hne, ?_, ?_⟩
  · rw [setColsList_getElem?, h]
    rfl
  · simp [objectValues, h]

/-- C1 witness at the doc-comment example, index 1. -/
theorem c1_witness :
    sqlForPartialUpdate exData (some exMap) =
      .ok ⟨String.intercalate ", " (setColsList exData exMap), objectValues exData⟩ ∧
    (setColsList exData exMap)[1]? =
      some ("\"" ++ resolveColName exMap "age" ++ "\"=$" ++ toString (1 + 1)) ∧
    (objectValues exData)[1]? = some (JSValue.num 32) :=
  c1_placeholder_value_alignment exData exMap 1 "age" (JSValue.num 32) rfl

/-- C2, counterexample to the claim as stated: the key `a` is present in
the mapping (mapped to the empty string), yet the produced fragment uses
`a`, not the mapped column name. -/
theorem c2_counterexample :
    sqlForPartialUpdate [("a", JSValue.num 1)] (some [("a", JSValue.str "")]) =
      .ok ⟨"\"a\"=$1", [JSValue.num 1]⟩ ∧
    ("\"a\"=$1" : String) ≠ "\"\"=$1" :=
  ⟨rfl, by decide⟩

/-- C2 amended: a key mapped to a truthy value yields the mapped column
name; a key that is absent — or mapped to a falsy value — yields the key
itself. -/
theorem c2_mapped_name_or_key (data m : JSObject) (i : Nat) (key : String)
    (v : JSValue) (h : data[i]? = some (key, v)) :
    ((jsGet m key).truthy = true →
      (setColsList data m)[i]? =
        some ("\"" ++ (jsGet m key).toDisplayString ++ "\"=$" ++ toString (i + 1))) ∧
    ((jsGet m key).truthy = false →
      (setColsList data m)[i]? =
        some ("\"" ++ key ++ "\"=$" ++ toString (i + 1))) := by
  constructor <;> intro ht <;> rw [setColsList_getElem?, h] <;>
    simp [setColFragment, resolveColName, ht]

/-- C2 witness: the mapped key of the example yields the mapped name. -/
theorem c2_witness :
    (setColsList exData exMap)[0]? =
      some ("\"" ++ (jsGet exMap "firstName").toDisplayString ++ "\"=$" ++ toString (0 + 1)) :=
  (c2_mapped_name_or_key exData exMap 0 "firstName" (JSValue.str "Aliya") rfl).1
    (by decide)

/-- C3: an empty `updateData` raises the `BadRequestError` (the spec's
`InvalidInput`) whatever `nameMapping` is, present, empty or absent. -/
theorem c3_empty_data_raises (jsToSql : Option JSObject) :
    sqlForPartialUpdate [] jsToSql = .error (.badRequest "No data") := rfl

/-- C4: with a non-empty `updateData` and the `nameMapping` argument
omitted (`undefined`), the call raises a `TypeError` instead of
succeeding, contradicting the source's own doc comment that `jsToSql` is
optional. -/
theorem c4_absent_mapping_raises :
    sqlForPartialUpdate [("age", JSValue.num 45)] none =
      .error (.typeError undefinedLookupMsg) := rfl

/-- C5: every fragment is the resolved column name wrapped in double
quotes, `=$` and the 1-based position, and `setCols` is the fragments
joined with the separator `, `. -/
theorem c5_fragment_shape_and_join (data m : JSObject) (h : data ≠ []) :
    sqlForPartialUpdate data (some m) =
      .ok ⟨String.intercalate ", " (setColsList data m), objectValues data⟩ ∧
    ∀ i key v, data[i]? = some (key, v) →
      (setColsList data m)[i]? =
        some ("\"" ++ resolveColName m key ++ "\"=$" ++ toString (i + 1)) := by
  refine ⟨sqlForPartialUpdate_ok data m h, ?_⟩
  intro i key v hi
  rw [setColsList_getElem?, hi]
  rfl

/-- C5 witness at the one-key example with the empty mapping. -/
theorem c5_witness :
    sqlForPartialUpdate [("age", JSValue.num 45)] (some []) =
      .ok ⟨String.intercalate ", " (setColsList [("age", JSValue.num 45)] []),
           objectValues [("age", JSValue.num 45)]⟩ ∧
    (setColsList [("age", JSValue.num 45)] [])[0]? =
      some ("\"" ++ resolveColName [] "age" ++ "\"=$" ++ toString (0 + 1)) := by
  have h := c5_fragment_shape_and_join [("age", JSValue.num 45)] []
    (List.cons_ne_nil _ _)
  exact ⟨h.1, h.2 0 "age" (JSValue.num 45) rfl⟩

/-- C6, counterexample to the claim as stated: with a non-empty
`updateData` and an absent `nameMapping` the call raises, so no `values`
with the claimed length exists. -/
theorem c6_counterexample :
    sqlForPartialUpdate [("x", JSValue.num 7)] none =
      .error (.typeError undefinedLookupMsg) ∧
    producedResult (sqlForPartialUpdate [("x", JSValue.num 7)] none) = false :=
  ⟨rfl, rfl⟩

/-- C6 amended: for every non-empty `updateData` and every present
`nameMapping` (including the empty one), `values`, the key list and the
fragment list all have the same length. -/
theorem c6_lengths_agree (data m : JSObject) (h : data ≠ []) :
    sqlForPartialUpdate data (some m) =
      .ok ⟨String.intercalate ", " (setColsList data m), objectValues data⟩ ∧
    (objectValues data).length = (objectKeys data).length ∧
    (setColsList data m).length = (objectKeys data).length := by
  refine ⟨sqlForPartialUpdate_ok data m h, ?_, ?_⟩ <;>
    simp [objectValues, objectKeys, setColsList]

/-- C6 witness at the doc-comment example. -/
theorem c6_witness :
    sqlForPartialUpdate exData (some exMap) =
      .ok ⟨String.intercalate ", " (setColsList exData exMap), objectValues exData⟩ ∧
    (objectValues exData).length = (objectKeys exData).length ∧
    (setColsList exData exMap).length = (objectKeys exData).length :=
  c6_lengths_agree exData exMap (List.cons_ne_nil _ _)

/-- C7: the builder is deterministic — identical inputs give identical
results. -/
theorem c7_deterministic (d1 d2 : JSObject) (m1 m2 : Option JSObject)
    (hd : d1 = d2) (hm : m1 = m2) :
    sqlForPartialUpdate d1 m1 = sqlForPartialUpdate d2 m2 := by
  rw [hd, hm]

/-- C7 witness: two calls on the doc-comment example agree. -/
theorem c7_witness :
    sqlForPartialUpdate exData (some exMap) = sqlForPartialUpdate exData (some exMap) :=
  c7_deterministic exData exData (some exMap) (some exMap) rfl rfl

/-- C8: threading the two arguments as explicit state, every path of the
call returns the state unchanged, and the produced result is that of the
pure function — the builder mutates neither argument. -/
theorem c8_no_side_effects (st : CallState) :
    (sqlForPartialUpdateSt st).2 = st ∧
    (sqlForPartialUpdateSt st).1 = sqlForPartialUpdate st.dataToUpdate st.jsToSql := by
  obtain ⟨d, j⟩ := st
  cases j <;> simp only [sqlForPartialUpdateSt, sqlForPartialUpdate] <;>
    split <;> simp

/-- C9, counterexample to the claim as stated: on a non-empty
`updateData` with an absent `nameMapping` the operation terminates with a
`TypeError`, which is neither a `ClauseResult` nor the `InvalidInput`
error. -/
theorem c9_counterexample :
    sqlForPartialUpdate [("logoUrl", JSValue.str "x.png")] none =
      .error (.typeError undefinedLookupMsg) ∧
    JsError.typeError undefinedLookupMsg ≠ JsError.badRequest "No data" :=
  ⟨rfl, by decide⟩

/-- C9 amended: the operation always terminates — with `InvalidInput` on
empty `updateData`, with a `TypeError` on non-empty `updateData` and
absent `nameMapping`, and with a `ClauseResult` otherwise — and its step
count is linear in the number of keys. -/
theorem c9_total_linear_cost (data : JSObject) (j : Option JSObject) :
    ((data = [] ∧ sqlForPartialUpdate data j = .error (.badRequest "No data")) ∨
     (data ≠ [] ∧ j = none ∧
        sqlForPartialUpdate data j = .error (.typeError undefinedLookupMsg)) ∨
     (data ≠ [] ∧ ∃ m, j = some m ∧
        sqlForPartialUpdate data j =
          .ok ⟨String.intercalate ", " (setColsList data m), objectValues data⟩)) ∧
    data.length ≤ sqlForPartialUpdateCost data j ∧
    sqlForPartialUpdateCost data j ≤ 4 * data.length + 2 := by
  refine ⟨?_, ?_, ?_⟩
  · by_cases hd : data = []
    · subst hd
      exact Or.inl ⟨rfl, rfl⟩
    · cases j with
      | none => exact Or.inr (Or.inl ⟨hd, rfl, sqlForPartialUpdate_none data hd⟩)
      | some m =>
          exact Or.inr (Or.inr ⟨hd, m, rfl, sqlForPartialUpdate_ok data m hd⟩)
  · cases j <;> simp only [sqlForPartialUpdateCost] <;> split <;> omega
  · cases j <;> simp only [sqlForPartialUpdateCost] <;> split <;> omega

/-- C10: a key whose entry in the mapping is present but falsy (for
example the empty string) is treated as if it were absent — the fragment
uses the key itself. -/
theorem c10_falsy_mapping_falls_back (data m : JSObject) (i : Nat)
    (key : String) (v : JSValue) (w : String × JSValue)
    (h : data[i]? = some (key, v))
    (hw : m.find? (fun p => p.1 == key) = some w)
    (hfalsy : w.2.truthy = false) :
    (setColsList data m)[i]? =
      some ("\"" ++ key ++ "\"=$" ++ toString (i + 1)) := by
  rw [setColsList_getElem?, h]
  simp [setColFragment, resolveColName, jsGet, hw, hfalsy]

/-- C10 witness: `age` mapped to the empty string still yields the
fragment built from `age` itself. -/
theorem c10_witness :
    (setColsList [("age", JSValue.num 32)] [("age", JSValue.str "")])[0]? =
      some ("\"" ++ "age" ++ "\"=$" ++ toString (0 + 1)) :=
  c10_falsy_mapping_falls_back [("age", JSValue.num 32)] [("age", JSValue.str "")]
    0 "age" (JSValue.num 32) ("age", JSValue.str "") rfl rfl (by decide)
